import Mathlib

/-!
Verification development for the client-side transaction engine of
brett19/couchbase-transactions-cxx.

The definitions below are a shallow embedding of the source:

* `src/include/couchbase/transactions.hxx` — the `transactions::run` driver and
  (in the second half of the file) `attempt_context_impl`, the attempt state
  machine: `get`/`get_optional`/`do_get`, `insert_raw`, `replace_raw`,
  `remove`, `select_atr_if_needed_unlocked`, `set_atr_pending_locked`,
  `atr_commit`, `atr_commit_ambiguity_resolution`, `atr_complete`,
  `atr_rollback_complete`, `check_for_own_write`, `check_if_done`.
* `src/src/transactions/attempt_context.cxx` — a legacy synchronous
  `attempt_context` (`init_atr_if_needed`, `insert`, `replace`, `remove`).
* `src/src/transactions/atr_cleanup_entry.cxx` — the lost-attempt cleanup
  engine (`do_per_doc`, `commit_docs`, `cleanup_entry`).
* `src/unnamed/part_000` — `transaction_context` (`retry_delay`) and the
  error-class mapper.

Remote KV responses (error classes of mutate-in and lookup-in calls, fetched
document contents, ATR reads) are inputs to the models: each model function
takes the relevant response as an argument and reproduces the source's
decision logic on it.  Testing hooks are the production no-op hooks and
forward-compatibility tag maps are taken absent, as in a production run.
-/

/-- Error classes of the storage layer, from `error_class_from_result`
(`src/unnamed/part_000`) and `exceptions_internal.hxx` as listed in spec §4.1. -/
inductive error_class
  | FAIL_EXPIRY
  | FAIL_DOC_NOT_FOUND
  | FAIL_DOC_ALREADY_EXISTS
  | FAIL_PATH_NOT_FOUND
  | FAIL_PATH_ALREADY_EXISTS
  | FAIL_CAS_MISMATCH
  | FAIL_TRANSIENT
  | FAIL_AMBIGUOUS
  | FAIL_ATR_FULL
  | FAIL_WRITE_WRITE_CONFLICT
  | FAIL_HARD
  | FAIL_OTHER
  deriving DecidableEq, Repr

/-- Attempt states, from `couchbase/transactions/attempt_state.hxx` as used
throughout the source. -/
inductive attempt_state
  | NOT_STARTED
  | PENDING
  | COMMITTED
  | ABORTED
  | COMPLETED
  | ROLLED_BACK
  deriving DecidableEq, Repr

/-- Modelled from the spec: `transaction_operation_failed` (declared in
`exceptions_internal.hxx`, which is not under src/) carries the failure class
plus the flags `{retry, rollback, expired, ambiguous, failed_post_commit}`
(spec §4.8); the builder methods `.retry()`, `.no_rollback()`, `.expired()`,
`.ambiguous()`, `.failed_post_commit()` set the corresponding flag.  A freshly
constructed failure is not retryable, allows rollback, and is not expired. -/
structure transaction_operation_failed where
  ec : error_class
  should_retry : Bool
  rollback_allowed : Bool
  was_expired : Bool
  ambiguous_flag : Bool
  failed_post_commit_flag : Bool
  deriving DecidableEq, Repr

/-- Constructor `transaction_operation_failed(ec, msg)`: default flags. -/
def transaction_operation_failed.mk0 (ec : error_class) : transaction_operation_failed :=
  ⟨ec, false, true, false, false, false⟩

/-- Builder `.retry()`. -/
def transaction_operation_failed.retry (t : transaction_operation_failed) :
    transaction_operation_failed :=
  { t with should_retry := true }

/-- Builder `.no_rollback()`. -/
def transaction_operation_failed.no_rollback (t : transaction_operation_failed) :
    transaction_operation_failed :=
  { t with rollback_allowed := false }

/-- Builder `.expired()`. -/
def transaction_operation_failed.expired (t : transaction_operation_failed) :
    transaction_operation_failed :=
  { t with was_expired := true }

/-- Builder `.ambiguous()`. -/
def transaction_operation_failed.ambiguous (t : transaction_operation_failed) :
    transaction_operation_failed :=
  { t with ambiguous_flag := true }

/-- Document identity: the 4-tuple `(bucket, scope, collection, key)` of
`couchbase::document_id` (spec §3: two identities compare equal iff all four
components match). -/
structure document_id where
  bucket : String
  scope : String
  collection : String
  key : String
  deriving DecidableEq, Repr

/-- Kinds of staged mutations, from `staged_mutation_type` as used in
`attempt_context_impl` (`INSERT`, `REMOVE`, `REPLACE`). -/
inductive staged_mutation_type
  | INSERT
  | REMOVE
  | REPLACE
  deriving DecidableEq, Repr

/-- One entry of the staged-mutation queue: document identity, staged content
and kind (spec §3 staged-mutation queue; `staged_mutation(doc, content, type)`
in the source). -/
structure staged_mutation where
  doc : document_id
  content : String
  kind : staged_mutation_type
  deriving DecidableEq, Repr

/-- Lookup of the first queue entry of a given kind for a given document
identity, as `staged_mutation_queue::find_insert` / `find_replace` /
`find_remove` behave at their call sites in `attempt_context_impl`. -/
def find_mutation (t : staged_mutation_type) (id : document_id) :
    List staged_mutation → Option staged_mutation
  | [] => none
  | m :: rest => if m.kind = t ∧ m.doc = id then some m else find_mutation t id rest

/-- `staged_mutation_queue::find_insert`. -/
def find_insert (q : List staged_mutation) (id : document_id) : Option staged_mutation :=
  find_mutation staged_mutation_type.INSERT id q

/-- `staged_mutation_queue::find_replace`. -/
def find_replace (q : List staged_mutation) (id : document_id) : Option staged_mutation :=
  find_mutation staged_mutation_type.REPLACE id q

/-- `staged_mutation_queue::find_remove`. -/
def find_remove (q : List staged_mutation) (id : document_id) : Option staged_mutation :=
  find_mutation staged_mutation_type.REMOVE id q

/-- `attempt_context_impl::check_for_own_write`: first `find_replace`, then
`find_insert`; a REMOVE entry is never looked for. -/
def check_for_own_write (q : List staged_mutation) (id : document_id) :
    Option staged_mutation :=
  match find_replace q id with
  | some m => some m
  | none => find_insert q id

/-- How one invocation of the user body ends, as seen by `transactions::run`:
the body returns (with the attempt either already done or not), or it throws
a `transaction_operation_failed`. -/
inductive body_outcome
  | returns (is_done : Bool)
  | throws (e : transaction_operation_failed)
  deriving DecidableEq, Repr

/-- Observable trace of one call to `transactions::run`. -/
structure run_trace where
  attempts_started : Nat
  body_invocations : Nat
  commit_called : Bool
  raised : Option transaction_operation_failed
  deriving DecidableEq, Repr

/-- `transactions::run` (`src/include/couchbase/transactions.hxx` lines 37-52):
constructs one `transaction_context` and one `attempt_context`, invokes the
body once, and calls `ctx.commit()` iff `!ctx.is_done()`.  There is no loop
and no exception handler, so a body failure propagates to the caller. -/
def transactions_run (b : body_outcome) : run_trace :=
  match b with
  | body_outcome.returns d =>
      { attempts_started := 1, body_invocations := 1, commit_called := !d, raised := none }
  | body_outcome.throws e =>
      { attempts_started := 1, body_invocations := 1, commit_called := false, raised := some e }

/-- `transaction_context::retry_delay` (`src/unnamed/part_000` lines 41-48):
sleeps `expiration_time / 100`.  It is invoked from
`set_atr_pending_locked` when the ATR-PENDING write is ambiguous, not by
`transactions::run`. -/
def retry_delay (expiration_time : Nat) : Nat :=
  expiration_time / 100

/-- The retry condition of claim C1: a new attempt is started iff the failure
has the retry flag set, is not expired, is not no-rollback, and the expiry
budget remains. -/
def claim_retry_condition (e : transaction_operation_failed) (budget_remains : Bool) : Bool :=
  e.should_retry && !e.was_expired && e.rollback_allowed && budget_remains

/-- Claim C1 as stated, instantiated at a failing body: the failure of the
attempt starts a new attempt iff the retry condition holds. -/
def claimC1_at (e : transaction_operation_failed) (budget_remains : Bool) : Prop :=
  2 ≤ (transactions_run (body_outcome.throws e)).attempts_started ↔
    claim_retry_condition e budget_remains = true

/-- C1 counterexample: a failure carrying the retry flag, not expired, with
rollback allowed and budget remaining, after which `transactions::run` still
starts no second attempt — the run loop of the spec does not exist in the
code; `run` drives exactly one attempt and propagates the failure. -/
theorem C1_run_never_retries_counterexample :
    ¬ claimC1_at (transaction_operation_failed.mk0 error_class.FAIL_TRANSIENT).retry true := by
  intro h
  have h2 := h.mpr (by decide)
  simp [transactions_run] at h2

/-- C1 amended: every call to `transactions::run` constructs exactly one fresh
attempt and invokes the body once with it; it commits automatically iff the
body returned with the attempt not already done; when the attempt fails, the
failure propagates to the caller and no new attempt is started, whatever the
failure's flags. -/
theorem C1_run_single_attempt (b : body_outcome) :
    (transactions_run b).attempts_started = 1 ∧
    (transactions_run b).body_invocations = 1 ∧
    ((transactions_run b).commit_called =
      match b with
      | body_outcome.returns d => !d
      | body_outcome.throws _ => false) ∧
    ((transactions_run b).raised =
      match b with
      | body_outcome.returns _ => none
      | body_outcome.throws e => some e) := by
  cases b <;> simp [transactions_run]

/-- `check_if_done` (`transactions.hxx` lines 1104-1114): once `is_done_` is
set, every public operation completes with this failure. -/
def done_error : transaction_operation_failed :=
  (transaction_operation_failed.mk0 error_class.FAIL_OTHER).no_rollback

/-- Outcome of a staging mutation operation (`replace_raw`, `insert_raw`,
`remove`): either the staged write succeeded or the operation completed with a
`transaction_operation_failed`. -/
inductive mutation_outcome
  | ok
  | err (e : transaction_operation_failed)
  deriving DecidableEq, Repr

/-- Error mapping of `attempt_context_impl::remove`'s `error_handler`
(`transactions.hxx` lines 524-541). -/
def remove_error_map (ec : error_class) : transaction_operation_failed :=
  match ec with
  | error_class.FAIL_EXPIRY => (transaction_operation_failed.mk0 ec).expired
  | error_class.FAIL_DOC_NOT_FOUND => (transaction_operation_failed.mk0 ec).retry
  | error_class.FAIL_DOC_ALREADY_EXISTS => (transaction_operation_failed.mk0 ec).retry
  | error_class.FAIL_CAS_MISMATCH => (transaction_operation_failed.mk0 ec).retry
  | error_class.FAIL_TRANSIENT => (transaction_operation_failed.mk0 ec).retry
  | error_class.FAIL_AMBIGUOUS => (transaction_operation_failed.mk0 ec).retry
  | error_class.FAIL_HARD => (transaction_operation_failed.mk0 ec).no_rollback
  | _ => transaction_operation_failed.mk0 ec

/-- Environment of one `remove` call: the results of the remote interactions
it may perform, in program order.  `blocking` is the error (if any) delivered
by `check_and_handle_blocking_transactions`'s callback, `atr_select` the error
(if any) delivered by `select_atr_if_needed_unlocked`'s callback, and
`staging_ec` the error class of the staging `mutate_in` response (`none` for
success). -/
structure remove_env where
  expired_pre : Bool
  blocking : Option transaction_operation_failed
  atr_select : Option transaction_operation_failed
  staging_ec : Option error_class
  deriving DecidableEq, Repr

/-- `attempt_context_impl::remove` (`transactions.hxx` lines 519-592), paired
with the number of KV operations it issues: `check_if_done`; expiry check at
STAGE_REMOVE (mapped through the `error_handler`, i.e. `.expired`); rejection
with FAIL_OTHER when `find_insert` finds the document in the queue (the
message is "Cannot remove a document inserted in the same transaction");
then the blocking-transaction check, ATR selection, and the staging
`mutate_in` (the one KV operation counted here; on success a REMOVE entry is
added to the queue). -/
def remove_op (is_done : Bool) (q : List staged_mutation) (id : document_id)
    (env : remove_env) : mutation_outcome × Nat :=
  if is_done then (mutation_outcome.err done_error, 0)
  else if env.expired_pre then
    (mutation_outcome.err (remove_error_map error_class.FAIL_EXPIRY), 0)
  else if (find_insert q id).isSome then
    (mutation_outcome.err (transaction_operation_failed.mk0 error_class.FAIL_OTHER), 0)
  else
    match env.blocking with
    | some e => (mutation_outcome.err e, 0)
    | none =>
      match env.atr_select with
      | some e => (mutation_outcome.err e, 0)
      | none =>
        match env.staging_ec with
        | none => (mutation_outcome.ok, 1)
        | some ec => (mutation_outcome.err (remove_error_map ec), 1)

/-- Claim C2 as stated, at the checkable fragment: removing a document that
was inserted earlier in the same attempt succeeds. -/
def claimC2_at (is_done : Bool) (q : List staged_mutation) (id : document_id)
    (env : remove_env) : Prop :=
  (remove_op is_done q id env).1 = mutation_outcome.ok

/-- A concrete document identity used by the concrete counterexamples. -/
def doc_b : document_id := ⟨"default", "_default", "_default", "b"⟩

/-- A queue holding exactly the staged insert of `doc_b`, as after
`ctx.insert("b", X)` inside the attempt. -/
def queue_with_insert_b : List staged_mutation :=
  [⟨doc_b, "X", staged_mutation_type.INSERT⟩]

/-- C2 counterexample: in a live, unexpired attempt whose queue holds the
staged insert of `doc_b`, `remove(doc_b)` does not succeed —
`attempt_context_impl::remove` rejects it with FAIL_OTHER before any staging
write, instead of collapsing the insert as the claim states. -/
theorem C2_remove_after_insert_counterexample :
    ¬ claimC2_at false queue_with_insert_b doc_b ⟨false, none, none, none⟩ ∧
    (remove_op false queue_with_insert_b doc_b ⟨false, none, none, none⟩).1 =
      mutation_outcome.err (transaction_operation_failed.mk0 error_class.FAIL_OTHER) := by
  constructor
  · intro h
    simp [claimC2_at, remove_op, find_insert, find_mutation, queue_with_insert_b, doc_b] at h
  · rfl

/-- C2 amended: within a single attempt, calling remove on a document that
was inserted earlier in the same attempt is rejected:
`attempt_context_impl::remove` completes with FAIL_OTHER (rollback still
allowed) before issuing any KV operation, and the insert entry is not
collapsed. -/
theorem C2_remove_after_insert_rejected (is_done : Bool) (q : List staged_mutation)
    (id : document_id) (env : remove_env)
    (hdone : is_done = false) (hexp : env.expired_pre = false)
    (hins : (find_insert q id).isSome) :
    remove_op is_done q id env =
      (mutation_outcome.err (transaction_operation_failed.mk0 error_class.FAIL_OTHER), 0) := by
  subst hdone
  simp [remove_op, hexp, hins]

/-- C2 amended witness at the concrete counterexample input. -/
theorem C2_remove_after_insert_rejected_witness :
    remove_op false queue_with_insert_b doc_b ⟨false, none, none, none⟩ =
      (mutation_outcome.err (transaction_operation_failed.mk0 error_class.FAIL_OTHER), 0) :=
  C2_remove_after_insert_rejected false queue_with_insert_b doc_b ⟨false, none, none, none⟩
    rfl rfl (by decide)

/-- Modelled from the spec (the `transaction_links` class sits in a header not
under src/): the staged `txn.*` xattrs carried by a fetched document, spec §3
staged-document shape, with the helper predicates used by `do_get` and the
cleanup engine. -/
structure transaction_links where
  atr_id_link : Option String
  atr_bucket_link : Option String
  atr_scope_link : Option String
  atr_coll_link : Option String
  staged_transaction_id : Option String
  staged_attempt_id : Option String
  staged_content_opt : Option String
  op : Option String
  crc32_of_staging : Option String
  is_deleted : Bool
  deriving DecidableEq, Repr

/-- Helper `is_document_in_transaction`: staged txn xattrs are present. -/
def transaction_links.is_document_in_transaction (l : transaction_links) : Bool :=
  l.atr_id_link.isSome

/-- Helper `is_document_being_removed`: the staged op is a remove. -/
def transaction_links.is_document_being_removed (l : transaction_links) : Bool :=
  l.op = some "remove"

/-- Helper `has_staged_write`: a staged attempt id is present. -/
def transaction_links.has_staged_write (l : transaction_links) : Bool :=
  l.staged_attempt_id.isSome

/-- Helper `has_staged_content`: staged content is present. -/
def transaction_links.has_staged_content (l : transaction_links) : Bool :=
  l.staged_content_opt.isSome

/-- Helper `staged_content`: the staged content, empty when absent. -/
def transaction_links.staged_content (l : transaction_links) : String :=
  l.staged_content_opt.getD ""

/-- A document as returned by `get_doc`: its links, its visible body
(`content<std::string>()`), and the server metadata CRC. -/
structure fetched_doc where
  links : transaction_links
  body : String
  meta_crc : Option String
  deriving DecidableEq, Repr

/-- View of one parsed ATR entry as consumed by `do_get` and the
blocking-transaction check: its attempt id, its status, and whether
`has_expired()` holds on it. -/
structure atr_entry_view where
  attempt_id : String
  st : attempt_state
  has_expired : Bool
  deriving DecidableEq, Repr

/-- The entry lookup of `do_get` (`transactions.hxx` lines 1158-1164): the
first ATR entry whose attempt id equals the document's staged attempt id. -/
def find_entry (sid : Option String) : List atr_entry_view → Option atr_entry_view
  | [] => none
  | e :: rest => if sid = some e.attempt_id then some e else find_entry sid rest

/-- Environment of one `do_get` call: this attempt's id and queue, the expiry
check result, and the responses of the (up to) two KV reads — the document
lookup-in and the ATR read (`none` models a failed ATR fetch). -/
structure get_env where
  my_attempt_id : String
  queue : List staged_mutation
  expired_pre : Bool
  fetch_ec : Option error_class
  fetched : Option fetched_doc
  atr : Option (List atr_entry_view)
  deriving DecidableEq, Repr

/-- Result of `do_get`: an error class, a hidden/absent document, or a visible
content. -/
inductive get_outcome
  | failed (ec : error_class)
  | not_found
  | found (content : String)
  deriving DecidableEq, Repr

/-- A `do_get` result paired with the number of KV reads issued. -/
structure get_trace where
  outcome : get_outcome
  kv_reads : Nat
  deriving DecidableEq, Repr

/-- `attempt_context_impl::do_get` (`transactions.hxx` lines 1115-1235):
own-write and own-remove answered from the queue with no KV read; otherwise
one lookup-in; for a document carrying staged xattrs one further ATR read,
whose entry (looked up by the staged attempt id) decides between the staged
content (entry COMMITTED, and hidden when the staged op is a remove), the
pre-transaction body (hidden when empty), and — own staged write seen via KV —
the staged content.  A missing entry or a failed ATR read falls through to the
body, hidden when empty.  Entry expiry is never consulted here. -/
def do_get (env : get_env) (id : document_id) : get_trace :=
  if env.expired_pre then ⟨get_outcome.failed error_class.FAIL_EXPIRY, 0⟩
  else
    match check_for_own_write env.queue id with
    | some m => ⟨get_outcome.found m.content, 0⟩
    | none =>
      if (find_remove env.queue id).isSome then ⟨get_outcome.not_found, 0⟩
      else
        match env.fetch_ec with
        | some ec => ⟨get_outcome.failed ec, 1⟩
        | none =>
          match env.fetched with
          | none => ⟨get_outcome.not_found, 1⟩
          | some doc =>
            if doc.links.is_document_in_transaction then
              match env.atr with
              | some entries =>
                match find_entry doc.links.staged_attempt_id entries with
                | some e =>
                  if e.attempt_id = env.my_attempt_id then
                    ⟨get_outcome.found doc.links.staged_content, 2⟩
                  else
                    match e.st with
                    | attempt_state.COMMITTED =>
                      if doc.links.is_document_being_removed then
                        ⟨get_outcome.not_found, 2⟩
                      else ⟨get_outcome.found doc.links.staged_content, 2⟩
                    | _ =>
                      if doc.body = "" then ⟨get_outcome.not_found, 2⟩
                      else ⟨get_outcome.found doc.body, 2⟩
                | none =>
                  if doc.body = "" then ⟨get_outcome.not_found, 2⟩
                  else ⟨get_outcome.found doc.body, 2⟩
              | none =>
                if doc.body = "" then ⟨get_outcome.not_found, 2⟩
                else ⟨get_outcome.found doc.body, 2⟩
            else
              if doc.links.is_deleted then ⟨get_outcome.not_found, 1⟩
              else ⟨get_outcome.found doc.body, 1⟩

/-- Claim C4's reference lookup, following the claim's words: as `do_get`, but
an entry of the foreign ATR that is missing **or expired** is treated as
not-in-transaction — fall through to the pre-transaction body, hiding the
document when the body is empty. -/
def claimC4_spec_lookup (env : get_env) (id : document_id) : get_trace :=
  if env.expired_pre then ⟨get_outcome.failed error_class.FAIL_EXPIRY, 0⟩
  else
    match check_for_own_write env.queue id with
    | some m => ⟨get_outcome.found m.content, 0⟩
    | none =>
      if (find_remove env.queue id).isSome then ⟨get_outcome.not_found, 0⟩
      else
        match env.fetch_ec with
        | some ec => ⟨get_outcome.failed ec, 1⟩
        | none =>
          match env.fetched with
          | none => ⟨get_outcome.not_found, 1⟩
          | some doc =>
            if doc.links.is_document_in_transaction then
              match env.atr with
              | some entries =>
                match find_entry doc.links.staged_attempt_id entries with
                | some e =>
                  if e.attempt_id ≠ env.my_attempt_id then
                    if e.has_expired then
                      if doc.body = "" then ⟨get_outcome.not_found, 2⟩
                      else ⟨get_outcome.found doc.body, 2⟩
                    else
                      match e.st with
                      | attempt_state.COMMITTED =>
                        if doc.links.is_document_being_removed then
                          ⟨get_outcome.not_found, 2⟩
                        else ⟨get_outcome.found doc.links.staged_content, 2⟩
                      | _ =>
                        if doc.body = "" then ⟨get_outcome.not_found, 2⟩
                        else ⟨get_outcome.found doc.body, 2⟩
                  else ⟨get_outcome.found doc.links.staged_content, 2⟩
                | none =>
                  if doc.body = "" then ⟨get_outcome.not_found, 2⟩
                  else ⟨get_outcome.found doc.body, 2⟩
              | none =>
                if doc.body = "" then ⟨get_outcome.not_found, 2⟩
                else ⟨get_outcome.found doc.body, 2⟩
            else
              if doc.links.is_deleted then ⟨get_outcome.not_found, 1⟩
              else ⟨get_outcome.found doc.body, 1⟩

/-- Claim C4 as amended: the same reference lookup with the expiry clause
removed — only a missing entry falls through to the body; an expired entry is
handled purely by its status, because `do_get` never consults entry expiry. -/
def claimC4_amended_lookup (env : get_env) (id : document_id) : get_trace :=
  if env.expired_pre then ⟨get_outcome.failed error_class.FAIL_EXPIRY, 0⟩
  else
    match check_for_own_write env.queue id with
    | some m => ⟨get_outcome.found m.content, 0⟩
    | none =>
      if (find_remove env.queue id).isSome then ⟨get_outcome.not_found, 0⟩
      else
        match env.fetch_ec with
        | some ec => ⟨get_outcome.failed ec, 1⟩
        | none =>
          match env.fetched with
          | none => ⟨get_outcome.not_found, 1⟩
          | some doc =>
            if doc.links.is_document_in_transaction then
              match env.atr with
              | some entries =>
                match find_entry doc.links.staged_attempt_id entries with
                | some e =>
                  if e.attempt_id ≠ env.my_attempt_id then
                    match e.st with
                    | attempt_state.COMMITTED =>
                      if doc.links.is_document_being_removed then
                        ⟨get_outcome.not_found, 2⟩
                      else ⟨get_outcome.found doc.links.staged_content, 2⟩
                    | _ =>
                      if doc.body = "" then ⟨get_outcome.not_found, 2⟩
                      else ⟨get_outcome.found doc.body, 2⟩
                  else ⟨get_outcome.found doc.links.staged_content, 2⟩
                | none =>
                  if doc.body = "" then ⟨get_outcome.not_found, 2⟩
                  else ⟨get_outcome.found doc.body, 2⟩
              | none =>
                if doc.body = "" then ⟨get_outcome.not_found, 2⟩
                else ⟨get_outcome.found doc.body, 2⟩
            else
              if doc.links.is_deleted then ⟨get_outcome.not_found, 1⟩
              else ⟨get_outcome.found doc.body, 1⟩

/-- Environment of the C4 counterexample: an empty queue, one fetched document
whose body is "old" and whose staged replace by foreign attempt "other"
carries content "new", and a foreign ATR whose entry for "other" is COMMITTED
but expired. -/
def c4_env : get_env :=
  { my_attempt_id := "me"
  , queue := []
  , expired_pre := false
  , fetch_ec := none
  , fetched := some
      { links :=
          { atr_id_link := some "atr0"
          , atr_bucket_link := some "default"
          , atr_scope_link := some "_default"
          , atr_coll_link := some "_default"
          , staged_transaction_id := some "txn-o"
          , staged_attempt_id := some "other"
          , staged_content_opt := some "new"
          , op := some "replace"
          , crc32_of_staging := none
          , is_deleted := false }
      , body := "old"
      , meta_crc := none }
  , atr := some [⟨"other", attempt_state.COMMITTED, true⟩] }

/-- C4 counterexample: on a document staged by another attempt whose ATR entry
is COMMITTED but expired, the claim's reference lookup (which treats an
expired entry as not-in-transaction) returns the pre-transaction body, while
`do_get` (which never consults entry expiry) returns the staged content. -/
theorem C4_get_expiry_counterexample :
    (do_get c4_env doc_b).outcome = get_outcome.found "new" ∧
    (claimC4_spec_lookup c4_env doc_b).outcome = get_outcome.found "old" ∧
    do_get c4_env doc_b ≠ claimC4_spec_lookup c4_env doc_b := by
  refine ⟨rfl, rfl, ?_⟩
  decide

/-- C4 amended: for every key, `do_get` equals the reference lookup of the
claim with the expiry clause removed — staged-queue hits are answered without
a KV read; a document staged by another attempt is resolved through that
attempt's entry in the foreign ATR (keyed by the staged attempt id), whose
status COMMITTED yields the staged content (hidden when the staged op is a
remove) and any other status the pre-transaction body (hidden when empty); a
missing entry, with empty body, hides the document.  Entry expiry is not
consulted. -/
theorem C4_do_get_matches_amended (env : get_env) (id : document_id) :
    do_get env id = claimC4_amended_lookup env id := by
  unfold do_get claimC4_amended_lookup
  cases hexp : env.expired_pre
  · cases hown : check_for_own_write env.queue id
    · cases hrem : (find_remove env.queue id).isSome
      · cases hfec : env.fetch_ec
        · cases hdoc : env.fetched
          · simp
          · rename_i doc
            cases hintx : doc.links.is_document_in_transaction
            · simp [hintx]
            · cases hatr : env.atr
              · simp [hintx]
              · rename_i entries
                cases hent : find_entry doc.links.staged_attempt_id entries
                · simp [hintx, hent]
                · rename_i e
                  by_cases hid : e.attempt_id = env.my_attempt_id
                  · simp [hintx, hent, hid]
                  · simp [hintx, hent, hid]
        · simp [hrem]
      · simp [hrem]
    · simp
  · simp

/-- Outcome of `create_staged_insert`: success, completion with an error, or
an internal retry of the staging (the FAIL_AMBIGUOUS delay-and-retry and the
FAIL_DOC_ALREADY_EXISTS / FAIL_CAS_MISMATCH fetch-and-retry paths of
`create_staged_insert_error_handler`). -/
inductive insert_outcome
  | ok
  | err (e : transaction_operation_failed)
  | internal_retry
  deriving DecidableEq, Repr

/-- First-level error mapping of `create_staged_insert_error_handler`
(`transactions.hxx` lines 1276-1396), outside expiry-overtime mode. -/
def create_staged_insert_error_map (ec : error_class) : insert_outcome :=
  match ec with
  | error_class.FAIL_EXPIRY =>
      insert_outcome.err ((transaction_operation_failed.mk0 ec).expired)
  | error_class.FAIL_TRANSIENT =>
      insert_outcome.err ((transaction_operation_failed.mk0 ec).retry)
  | error_class.FAIL_AMBIGUOUS => insert_outcome.internal_retry
  | error_class.FAIL_OTHER =>
      insert_outcome.err (transaction_operation_failed.mk0 ec)
  | error_class.FAIL_HARD =>
      insert_outcome.err ((transaction_operation_failed.mk0 ec).no_rollback)
  | error_class.FAIL_DOC_ALREADY_EXISTS => insert_outcome.internal_retry
  | error_class.FAIL_CAS_MISMATCH => insert_outcome.internal_retry
  | _ => insert_outcome.err ((transaction_operation_failed.mk0 ec).retry)

/-- Environment of one `insert` call: the expiry check result, the error (if
any) delivered by `select_atr_if_needed_unlocked`, and the error class of the
staging `mutate_in` response. -/
structure insert_env where
  expired_pre : Bool
  atr_select : Option transaction_operation_failed
  staging_ec : Option error_class
  deriving DecidableEq, Repr

/-- `attempt_context_impl::insert_raw` (`transactions.hxx` lines 411-437) with
`create_staged_insert` (lines 1398-1462), paired with the number of KV
operations issued: `check_if_done`; rejection with FAIL_OTHER when
`check_for_own_write` (which consults only REPLACE and INSERT entries) finds
the document in the queue; expiry check at STAGE_INSERT; ATR selection; then
the staging `mutate_in` (the one KV operation counted here; on success an
INSERT entry is added to the queue). -/
def insert_op (is_done : Bool) (q : List staged_mutation) (id : document_id)
    (env : insert_env) : insert_outcome × Nat :=
  if is_done then (insert_outcome.err done_error, 0)
  else if (check_for_own_write q id).isSome then
    (insert_outcome.err (transaction_operation_failed.mk0 error_class.FAIL_OTHER), 0)
  else if env.expired_pre then
    (insert_outcome.err ((transaction_operation_failed.mk0 error_class.FAIL_EXPIRY).expired), 0)
  else
    match env.atr_select with
    | some e => (insert_outcome.err e, 0)
    | none =>
      match env.staging_ec with
      | none => (insert_outcome.ok, 1)
      | some ec => (create_staged_insert_error_map ec, 1)

/-- Claim C7 as stated, instantiated at one call: when the target already
appears in the queue as any kind of entry, the insert fails with FAIL_OTHER. -/
def claimC7_at (q : List staged_mutation) (id : document_id) (env : insert_env) : Prop :=
  (insert_op false q id env).1 =
    insert_outcome.err (transaction_operation_failed.mk0 error_class.FAIL_OTHER)

/-- A queue holding exactly a staged REMOVE of `doc_b`. -/
def queue_with_remove_b : List staged_mutation :=
  [⟨doc_b, "", staged_mutation_type.REMOVE⟩]

/-- C7 counterexample: with `doc_b` present in the queue as a REMOVE entry, a
subsequent insert of `doc_b` is not rejected — `check_for_own_write` consults
only `find_replace` and `find_insert`, so the staging proceeds (and here
succeeds), contradicting the claim for REMOVE entries. -/
theorem C7_insert_after_remove_counterexample :
    ¬ claimC7_at queue_with_remove_b doc_b ⟨false, none, none⟩ ∧
    insert_op false queue_with_remove_b doc_b ⟨false, none, none⟩ = (insert_outcome.ok, 1) := by
  constructor
  · intro h
    simp [claimC7_at, insert_op, check_for_own_write, find_replace, find_insert,
      find_mutation, queue_with_remove_b, doc_b] at h
  · rfl

/-- Membership characterisation of `find_mutation`. -/
theorem find_mutation_isSome_iff (t : staged_mutation_type) (id : document_id)
    (q : List staged_mutation) :
    (find_mutation t id q).isSome = true ↔ ∃ m ∈ q, m.kind = t ∧ m.doc = id := by
  induction q with
  | nil => simp [find_mutation]
  | cons m rest ih =>
    by_cases h : m.kind = t ∧ m.doc = id
    · simp [find_mutation, h]
    · simp only [find_mutation, if_neg h, ih, List.mem_cons]
      constructor
      · rintro ⟨m2, hm2, hk⟩
        exact ⟨m2, Or.inr hm2, hk⟩
      · rintro ⟨m2, hm2 | hm2, hk⟩
        · exact absurd (hm2 ▸ hk) h
        · exact ⟨m2, hm2, hk⟩

/-- C7 amended: a live insert of a document id is rejected with FAIL_OTHER iff
the id already appears in the staged-mutation queue as an INSERT or a REPLACE
entry — `check_for_own_write` does not consult REMOVE entries, so a document
staged for removal does not trigger the rejection. -/
theorem C7_insert_own_write_gate (q : List staged_mutation) (id : document_id) :
    ((check_for_own_write q id).isSome = true ↔
      ∃ m ∈ q, m.doc = id ∧
        (m.kind = staged_mutation_type.INSERT ∨ m.kind = staged_mutation_type.REPLACE)) ∧
    (∀ env : insert_env, (check_for_own_write q id).isSome = true →
      insert_op false q id env =
        (insert_outcome.err (transaction_operation_failed.mk0 error_class.FAIL_OTHER), 0)) := by
  constructor
  · unfold check_for_own_write
    cases hrep : find_replace q id with
    | some m =>
      simp only [Option.isSome_some, true_iff]
      have hsome : (find_mutation staged_mutation_type.REPLACE id q).isSome = true := by
        rw [show find_mutation staged_mutation_type.REPLACE id q = find_replace q id from rfl,
          hrep]
        rfl
      obtain ⟨m2, hm2, hk, hd⟩ :=
        (find_mutation_isSome_iff staged_mutation_type.REPLACE id q).mp hsome
      exact ⟨m2, hm2, hd, Or.inr hk⟩
    | none =>
      rw [show (find_insert q id) = find_mutation staged_mutation_type.INSERT id q from rfl,
        find_mutation_isSome_iff]
      constructor
      · rintro ⟨m, hm, hk, hd⟩
        exact ⟨m, hm, hd, Or.inl hk⟩
      · rintro ⟨m, hm, hd, hk | hk⟩
        · exact ⟨m, hm, hk, hd⟩
        · exfalso
          have : (find_mutation staged_mutation_type.REPLACE id q).isSome = true :=
            (find_mutation_isSome_iff staged_mutation_type.REPLACE id q).mpr ⟨m, hm, hk, hd⟩
          rw [show find_mutation staged_mutation_type.REPLACE id q = find_replace q id from rfl,
            hrep] at this
          exact Bool.noConfusion this
  · intro env hown
    simp [insert_op, hown]

/-- C7 amended witness: a queue holding a staged INSERT of `doc_b` makes a
second insert of `doc_b` fail with FAIL_OTHER. -/
theorem C7_insert_own_write_gate_witness :
    insert_op false queue_with_insert_b doc_b ⟨false, none, none⟩ =
      (insert_outcome.err (transaction_operation_failed.mk0 error_class.FAIL_OTHER), 0) :=
  (C7_insert_own_write_gate queue_with_insert_b doc_b).2 ⟨false, none, none⟩ (by decide)

/-- Error mapping of `attempt_context_impl::replace_raw`'s `error_handler`
(`transactions.hxx` lines 317-331). -/
def replace_error_map (ec : error_class) : transaction_operation_failed :=
  match ec with
  | error_class.FAIL_DOC_NOT_FOUND => (transaction_operation_failed.mk0 ec).retry
  | error_class.FAIL_DOC_ALREADY_EXISTS => (transaction_operation_failed.mk0 ec).retry
  | error_class.FAIL_CAS_MISMATCH => (transaction_operation_failed.mk0 ec).retry
  | error_class.FAIL_TRANSIENT => (transaction_operation_failed.mk0 ec).retry
  | error_class.FAIL_AMBIGUOUS => (transaction_operation_failed.mk0 ec).retry
  | error_class.FAIL_HARD => (transaction_operation_failed.mk0 ec).no_rollback
  | _ => transaction_operation_failed.mk0 ec

/-- Environment of one `replace` call, as for `remove`. -/
structure replace_env where
  expired_pre : Bool
  blocking : Option transaction_operation_failed
  atr_select : Option transaction_operation_failed
  staging_ec : Option error_class
  deriving DecidableEq, Repr

/-- `attempt_context_impl::replace_raw` (`transactions.hxx` lines 291-383),
paired with the number of KV operations issued: `check_if_done`; expiry check
at STAGE_REPLACE; the blocking-transaction check; ATR selection; then the
staging `mutate_in` (on success the queue entry is updated per the collapse
rules). -/
def replace_op (is_done : Bool) (env : replace_env) : mutation_outcome × Nat :=
  if is_done then (mutation_outcome.err done_error, 0)
  else if env.expired_pre then
    (mutation_outcome.err ((transaction_operation_failed.mk0 error_class.FAIL_EXPIRY).expired), 0)
  else
    match env.blocking with
    | some e => (mutation_outcome.err e, 0)
    | none =>
      match env.atr_select with
      | some e => (mutation_outcome.err e, 0)
      | none =>
        match env.staging_ec with
        | none => (mutation_outcome.ok, 1)
        | some ec => (mutation_outcome.err (replace_error_map ec), 1)

/-- Result of a public `get` / `get_optional` call: a value (`none` only for
`get_optional` on a missing document) or a `transaction_operation_failed`. -/
inductive get_result_outcome
  | ok (res : Option String)
  | err (e : transaction_operation_failed)
  deriving DecidableEq, Repr

/-- Error mapping of `attempt_context_impl::get` and `get_optional` on the
error class delivered by `do_get` (`transactions.hxx` lines 172-188 and
226-242). -/
def get_error_map (ec : error_class) : transaction_operation_failed :=
  match ec with
  | error_class.FAIL_EXPIRY => (transaction_operation_failed.mk0 ec).expired
  | error_class.FAIL_DOC_NOT_FOUND => transaction_operation_failed.mk0 ec
  | error_class.FAIL_TRANSIENT => (transaction_operation_failed.mk0 ec).retry
  | error_class.FAIL_HARD => (transaction_operation_failed.mk0 ec).no_rollback
  | _ => transaction_operation_failed.mk0 error_class.FAIL_OTHER

/-- `attempt_context_impl::get` (`transactions.hxx` lines 163-201), paired
with the number of KV reads issued: `check_if_done`, then `do_get`, whose
errors go through `get_error_map` and whose hidden/absent result becomes a
not-found failure. -/
def attempt_get (is_done : Bool) (env : get_env) (id : document_id) :
    get_result_outcome × Nat :=
  if is_done then (get_result_outcome.err done_error, 0)
  else
    let t := do_get env id
    match t.outcome with
    | get_outcome.failed ec => (get_result_outcome.err (get_error_map ec), t.kv_reads)
    | get_outcome.not_found =>
        (get_result_outcome.err (transaction_operation_failed.mk0 error_class.FAIL_DOC_NOT_FOUND),
         t.kv_reads)
    | get_outcome.found c => (get_result_outcome.ok (some c), t.kv_reads)

/-- `attempt_context_impl::get_optional` (`transactions.hxx` lines 217-254):
as `get`, but FAIL_DOC_NOT_FOUND and a hidden/absent document complete with an
empty result. -/
def attempt_get_optional (is_done : Bool) (env : get_env) (id : document_id) :
    get_result_outcome × Nat :=
  if is_done then (get_result_outcome.err done_error, 0)
  else
    let t := do_get env id
    match t.outcome with
    | get_outcome.failed error_class.FAIL_DOC_NOT_FOUND =>
        (get_result_outcome.ok none, t.kv_reads)
    | get_outcome.failed ec => (get_result_outcome.err (get_error_map ec), t.kv_reads)
    | get_outcome.not_found => (get_result_outcome.ok none, t.kv_reads)
    | get_outcome.found c => (get_result_outcome.ok (some c), t.kv_reads)

/-- C10: once `is_done_` is set (by commit or rollback), every public
operation — get, get_optional, insert, replace and remove — completes through
`check_if_done` with a FAIL_OTHER failure marked no-rollback, performing zero
KV operations. -/
theorem C10_done_gates_all_operations (env : get_env) (id : document_id)
    (q : List staged_mutation) (ienv : insert_env) (renv : replace_env)
    (menv : remove_env) :
    attempt_get true env id = (get_result_outcome.err done_error, 0) ∧
    attempt_get_optional true env id = (get_result_outcome.err done_error, 0) ∧
    insert_op true q id ienv = (insert_outcome.err done_error, 0) ∧
    replace_op true renv = (mutation_outcome.err done_error, 0) ∧
    remove_op true q id menv = (mutation_outcome.err done_error, 0) ∧
    done_error.ec = error_class.FAIL_OTHER ∧
    done_error.rollback_allowed = false := by
  refine ⟨rfl, rfl, rfl, rfl, rfl, rfl, rfl⟩

/-- Outcome of `atr_commit_ambiguity_resolution`: return to the caller with
the commit treated as succeeded; failure "transaction rolled back externally"
with rollback disallowed; or `retry_atr_commit`, which makes `atr_commit`
re-issue the ATR-COMMIT write. -/
inductive ambiguity_resolution_outcome
  | commit_succeeded
  | rolled_back_externally (e : transaction_operation_failed)
  | retry_atr_commit_write
  deriving DecidableEq, Repr

/-- `attempt_context_impl::atr_commit_ambiguity_resolution`
(`transactions.hxx` lines 667-717) on the status re-read from the ATR entry:
`none` models the FAIL_PATH_NOT_FOUND lookup result (entry missing), which the
catch block maps to FAIL_OTHER "transaction rolled back externally" with
no-rollback; a present status is switched on — COMPLETED returns, ABORTED and
ROLLED_BACK raise the external-rollback failure, and every other status
(including COMMITTED) falls to the default branch and retries the ATR-COMMIT
write. -/
def atr_commit_ambiguity_resolution (read_status : Option attempt_state) :
    ambiguity_resolution_outcome :=
  match read_status with
  | none =>
      ambiguity_resolution_outcome.rolled_back_externally
        ((transaction_operation_failed.mk0 error_class.FAIL_OTHER).no_rollback)
  | some attempt_state.COMPLETED => ambiguity_resolution_outcome.commit_succeeded
  | some attempt_state.ABORTED =>
      ambiguity_resolution_outcome.rolled_back_externally
        ((transaction_operation_failed.mk0 error_class.FAIL_OTHER).no_rollback)
  | some attempt_state.ROLLED_BACK =>
      ambiguity_resolution_outcome.rolled_back_externally
        ((transaction_operation_failed.mk0 error_class.FAIL_OTHER).no_rollback)
  | some _ => ambiguity_resolution_outcome.retry_atr_commit_write

/-- The status value the ATR-COMMIT write stores in the entry:
`attempt_state_name(attempt_state::COMMITTED)` in `atr_commit`
(`transactions.hxx` lines 613-618). -/
def atr_commit_status_written : attempt_state := attempt_state.COMMITTED

/-- C3: evaluation of the commit-ambiguity resolution at the failing input.
`atr_commit` writes status COMMITTED, so a successful-but-ambiguous
ATR-COMMIT re-reads COMMITTED; the resolution code returns success only on
COMPLETED (a value never stored in an ATR entry — `atr_complete` removes the
entry instead of writing it) and sends COMMITTED to the default branch, which
retries the ATR-COMMIT write instead of returning commit success as the claim
(and the spec's scenario D) states.  The missing-entry, ABORTED, and PENDING
branches behave as claimed. -/
theorem C3_ambiguity_resolution_committed_retries :
    atr_commit_ambiguity_resolution (some atr_commit_status_written) =
      ambiguity_resolution_outcome.retry_atr_commit_write ∧
    atr_commit_status_written = attempt_state.COMMITTED ∧
    atr_commit_ambiguity_resolution (some attempt_state.COMMITTED) ≠
      ambiguity_resolution_outcome.commit_succeeded ∧
    atr_commit_ambiguity_resolution (some attempt_state.COMPLETED) =
      ambiguity_resolution_outcome.commit_succeeded ∧
    atr_commit_ambiguity_resolution none =
      ambiguity_resolution_outcome.rolled_back_externally
        ((transaction_operation_failed.mk0 error_class.FAIL_OTHER).no_rollback) ∧
    atr_commit_ambiguity_resolution (some attempt_state.ABORTED) =
      ambiguity_resolution_outcome.rolled_back_externally
        ((transaction_operation_failed.mk0 error_class.FAIL_OTHER).no_rollback) ∧
    atr_commit_ambiguity_resolution (some attempt_state.PENDING) =
      ambiguity_resolution_outcome.retry_atr_commit_write := by
  refine ⟨rfl, rfl, ?_, rfl, rfl, rfl, rfl⟩
  decide

/-- Sub-document opcodes used by the engine (spec §6). -/
inductive subdoc_opcode
  | get
  | get_doc
  | dict_add
  | dict_upsert
  | remove
  | replace
  | set_doc
  deriving DecidableEq, Repr

/-- Value of a mutate-in spec: a JSON literal, or a server-expanded value
(`mutate_in_macro::CAS`, `mutate_in_macro::VALUE_CRC_32C`). -/
inductive spec_value
  | js (s : String)
  | server_cas
  | server_crc32c
  deriving DecidableEq, Repr

/-- One sub-document mutation spec, mirroring
`req.specs.add_spec(opcode, xattr, create_path, expand, path, value)` as
written in the source. -/
structure mutate_in_spec where
  op : subdoc_opcode
  xattr : Bool
  create_path : Bool
  expand : Bool
  path : String
  val : spec_value
  deriving DecidableEq, Repr

/-- Store semantics of a mutate-in request. -/
inductive store_semantics_type
  | insert_sem
  | upsert_sem
  | replace_sem
  deriving DecidableEq, Repr

/-- A mutate-in request: its target document and its spec list. -/
structure mutate_in_request where
  target : document_id
  specs : List mutate_in_spec
  store_semantics : store_semantics_type
  deriving DecidableEq, Repr

/-- The `attempts` root of the per-attempt ATR sub-tree
(`ATR_FIELD_ATTEMPTS`). -/
def ATR_FIELD_ATTEMPTS : String := "attempts"

/-- Modelled from the spec (transaction_fields.hxx is not under src/): the
per-attempt ATR field names of the spec's ATR layout (§6): status `tst`,
start timestamp `tst_s`, start-commit `tsc_s`, expires-after `exp`. -/
def ATR_FIELD_STATUS : String := "tst"

/-- Modelled from the spec: start-timestamp field of the ATR layout. -/
def ATR_FIELD_START_TIMESTAMP : String := "tst_s"

/-- Modelled from the spec: start-commit-timestamp field of the ATR layout. -/
def ATR_FIELD_START_COMMIT : String := "tsc_s"

/-- Modelled from the spec: expires-after-msecs field of the ATR layout. -/
def ATR_FIELD_EXPIRES_AFTER_MSECS : String := "exp"

/-- Modelled from the spec: the transaction-id field written first by
`set_atr_pending_locked`; its concrete name is not given by the spec's layout
table and does not matter below. -/
def ATR_FIELD_TRANSACTION_ID : String := "tid"

/-- The per-attempt path root `"attempts." + attempt_id + "."` used by the
ATR writes. -/
def attempt_pfx (attempt_id : String) : String :=
  ATR_FIELD_ATTEMPTS ++ "." ++ attempt_id ++ "."

/-- The ATR-PENDING mutate-in request built by
`attempt_context_impl::set_atr_pending_locked` (`transactions.hxx` lines
1050-1070): addressed to `atr_id_.value()`; four `dict_add` xattr specs under
the per-attempt sub-tree — the transaction id, status PENDING, the start
timestamp via the server CAS macro (expand set), and expires_after_msecs from
`config_.expiration_time()` in milliseconds; store semantics upsert. -/
def set_atr_pending_request (attempt_id txn_id : String) (atr_id : document_id)
    (expiration_ms : Nat) : mutate_in_request :=
  { target := atr_id
  , specs :=
      [ ⟨subdoc_opcode.dict_add, true, true, false,
          attempt_pfx attempt_id ++ ATR_FIELD_TRANSACTION_ID, spec_value.js txn_id⟩
      , ⟨subdoc_opcode.dict_add, true, true, false,
          attempt_pfx attempt_id ++ ATR_FIELD_STATUS, spec_value.js "PENDING"⟩
      , ⟨subdoc_opcode.dict_add, true, true, true,
          attempt_pfx attempt_id ++ ATR_FIELD_START_TIMESTAMP, spec_value.server_cas⟩
      , ⟨subdoc_opcode.dict_add, true, true, false,
          attempt_pfx attempt_id ++ ATR_FIELD_EXPIRES_AFTER_MSECS,
          spec_value.js (toString expiration_ms)⟩ ]
  , store_semantics := store_semantics_type.upsert_sem }

/-- Outcome of one ATR-PENDING write round. -/
inductive pending_outcome
  | success
  | retry_pending_write (delay_ms : Nat)
  | failure (e : transaction_operation_failed)
  deriving DecidableEq, Repr

/-- The response handling of `set_atr_pending_locked` (its `error_handler`
plus the success continuation, `transactions.hxx` lines 1014-1082):
FAIL_PATH_ALREADY_EXISTS is success ("assuming this got resolved, moving on
as if ok"); FAIL_AMBIGUOUS retries the same write after
`transaction_context::retry_delay`; in expiry-overtime every error is
no-rollback + expired. -/
def set_atr_pending_handle (overtime : Bool) (expiration_ms : Nat)
    (resp_ec : Option error_class) : pending_outcome :=
  match resp_ec with
  | none => pending_outcome.success
  | some ec =>
    if overtime then
      pending_outcome.failure (((transaction_operation_failed.mk0 ec).no_rollback).expired)
    else
      match ec with
      | error_class.FAIL_EXPIRY =>
          pending_outcome.failure ((transaction_operation_failed.mk0 ec).expired)
      | error_class.FAIL_ATR_FULL =>
          pending_outcome.failure (transaction_operation_failed.mk0 ec)
      | error_class.FAIL_PATH_ALREADY_EXISTS => pending_outcome.success
      | error_class.FAIL_AMBIGUOUS =>
          pending_outcome.retry_pending_write (retry_delay expiration_ms)
      | error_class.FAIL_TRANSIENT =>
          pending_outcome.failure ((transaction_operation_failed.mk0 ec).retry)
      | error_class.FAIL_HARD =>
          pending_outcome.failure ((transaction_operation_failed.mk0 ec).no_rollback)
      | _ => pending_outcome.failure (transaction_operation_failed.mk0 ec)

/-- Value of a legacy `mutate_in_spec` in `attempt_context.cxx`: a JSON
literal, the macro-expanded `${Mutation.CAS}` string, or the full-document
upsert of the empty object. -/
inductive legacy_spec_value
  | js (s : String)
  | cas_expansion
  | fulldoc_upsert_empty
  deriving DecidableEq, Repr

/-- A legacy `collection->mutate_in(key, specs)` call: its target key within
the collection and its path/value spec list. -/
structure legacy_mutate_in_call where
  target_key : String
  specs : List (String × legacy_spec_value)
  deriving DecidableEq, Repr

/-- The ATR-PENDING mutate-in issued by the legacy `attempt_context::insert`
(`attempt_context.cxx` lines 175-186) on the first mutation: it is addressed
to `id` — the key of the document being inserted, not the selected ATR — and
writes status PENDING, the `${Mutation.CAS}` start timestamp, and
`expires_after_msecs = 15` regardless of the configured expiry budget
(`attempt_context::remove`, lines 214-225, issues the same call on
`document.id()`). -/
def legacy_insert_atr_pending (attempt_id doc_key : String) : legacy_mutate_in_call :=
  { target_key := doc_key
  , specs :=
      [ (attempt_pfx attempt_id ++ ATR_FIELD_STATUS, legacy_spec_value.js "PENDING")
      , (attempt_pfx attempt_id ++ ATR_FIELD_START_TIMESTAMP, legacy_spec_value.cas_expansion)
      , (attempt_pfx attempt_id ++ ATR_FIELD_EXPIRES_AFTER_MSECS, legacy_spec_value.js "15")
      , ("", legacy_spec_value.fulldoc_upsert_empty) ] }

/-- C5: the ATR-PENDING step.  In `attempt_context_impl` the claim holds: the
request is addressed to the selected ATR document, records status=PENDING and
the start timestamp via the server CAS macro as `dict_add` specs under the
per-attempt sub-tree, sets expires_after_msecs to the configured expiry
budget, and a FAIL_PATH_ALREADY_EXISTS response is treated as success.  The
legacy `attempt_context::insert`, however, addresses the very same write to
the mutated document's key ("mydoc" here, not the ATR) and hard-codes
expires_after_msecs to 15. -/
theorem C5_atr_pending_write (attempt_id txn_id : String) (atr_id : document_id)
    (expiration_ms : Nat) :
    (set_atr_pending_request attempt_id txn_id atr_id expiration_ms).target = atr_id ∧
    (⟨subdoc_opcode.dict_add, true, true, false,
        attempt_pfx attempt_id ++ ATR_FIELD_STATUS, spec_value.js "PENDING"⟩ :
      mutate_in_spec) ∈ (set_atr_pending_request attempt_id txn_id atr_id expiration_ms).specs ∧
    (⟨subdoc_opcode.dict_add, true, true, true,
        attempt_pfx attempt_id ++ ATR_FIELD_START_TIMESTAMP, spec_value.server_cas⟩ :
      mutate_in_spec) ∈ (set_atr_pending_request attempt_id txn_id atr_id expiration_ms).specs ∧
    (⟨subdoc_opcode.dict_add, true, true, false,
        attempt_pfx attempt_id ++ ATR_FIELD_EXPIRES_AFTER_MSECS,
        spec_value.js (toString expiration_ms)⟩ :
      mutate_in_spec) ∈ (set_atr_pending_request attempt_id txn_id atr_id expiration_ms).specs ∧
    set_atr_pending_handle false expiration_ms (some error_class.FAIL_PATH_ALREADY_EXISTS) =
      pending_outcome.success ∧
    (legacy_insert_atr_pending "a0" "mydoc").target_key = "mydoc" ∧
    (attempt_pfx "a0" ++ ATR_FIELD_EXPIRES_AFTER_MSECS, legacy_spec_value.js "15") ∈
      (legacy_insert_atr_pending "a0" "mydoc").specs := by
  refine ⟨rfl, ?_, ?_, ?_, rfl, rfl, ?_⟩
  · simp [set_atr_pending_request]
  · simp [set_atr_pending_request]
  · simp [set_atr_pending_request]
  · simp [legacy_insert_atr_pending]

/-- Modelled from the spec (atr_ids.hxx / atr_ids.cxx are not under src/):
`vbucket_for_key(key) = CRC32(key) mod 1024`, with the CRC32 function
abstracted as a parameter. -/
def vbucket_for_key (crc32 : String → Nat) (key : String) : Nat :=
  crc32 key % 1024

/-- Modelled from the spec (utils.hxx is not under src/):
`collection_spec_from_id` renders the scope.collection of a document id. -/
def collection_spec_from_id (id : document_id) : String :=
  id.scope ++ "." ++ id.collection

/-- The ATR-selection state carried by the attempt and the transaction
context: `atr_id_` plus the two values recorded on the context by
`overall_.atr_collection(...)` and `overall_.atr_id(...)`. -/
structure atr_selection_state where
  atr_id : Option document_id
  recorded_atr_collection : Option String
  recorded_atr_id : Option String
  deriving DecidableEq, Repr

/-- `attempt_context_impl::select_atr_if_needed_unlocked` (`transactions.hxx`
lines 439-465), selection part, with the production no-op
`random_atr_id_for_vbucket` hook and the table of 1024 ATR keys abstracted as
a parameter: when `atr_id_` is already set nothing changes ("atr exists,
moving on"); otherwise the ATR becomes
`atr_id_for_vbucket(vbucket_for_key(id.key()))` in the `_default._default`
namespace of the mutated document's bucket, and the context records the
collection spec of the mutated document and the ATR key. -/
def select_atr_if_needed (crc32 : String → Nat) (atr_table : Nat → String)
    (st : atr_selection_state) (id : document_id) : atr_selection_state :=
  match st.atr_id with
  | some _ => st
  | none =>
    let atr_key := atr_table (vbucket_for_key crc32 id.key)
    { atr_id := some ⟨id.bucket, "_default", "_default", atr_key⟩
    , recorded_atr_collection := some (collection_spec_from_id id)
    , recorded_atr_id := some atr_key }

/-- The legacy `attempt_context::init_atr_if_needed` (`attempt_context.cxx`
lines 35-45): its guard is `if (atr_id_)` — so when no ATR is selected yet it
does nothing, and when one is already selected it recomputes the ATR from the
current mutation's key and sets the state to PENDING. -/
def legacy_init_atr_if_needed (crc32 : String → Nat) (atr_table : Nat → String)
    (atr_id : Option String) (key : String) : Option String × Option attempt_state :=
  match atr_id with
  | some _ => (some (atr_table (vbucket_for_key crc32 key)), some attempt_state.PENDING)
  | none => (atr_id, none)

/-- C6: ATR selection.  In `attempt_context_impl` the claim holds: the first
mutation selects `atr_id_for_vbucket(vbucket_for_key(key))` in the
`_default._default` namespace of the mutated document's bucket and records it
on the transaction context, and any later mutation leaves the selection
unchanged.  The legacy `attempt_context::init_atr_if_needed` has the guard
inverted: the first mutation (no ATR selected) selects nothing, and a later
mutation with an ATR already selected recomputes it from its own key — here
from "atr1" to "atr2" — so the selection is not frozen. -/
theorem C6_atr_selection_frozen (crc32 : String → Nat) (atr_table : Nat → String) :
    (∀ (a : document_id) (c r : Option String) (id : document_id),
      select_atr_if_needed crc32 atr_table ⟨some a, c, r⟩ id = ⟨some a, c, r⟩) ∧
    (∀ id : document_id,
      select_atr_if_needed crc32 atr_table ⟨none, none, none⟩ id =
        ⟨some ⟨id.bucket, "_default", "_default", atr_table (crc32 id.key % 1024)⟩,
         some (collection_spec_from_id id),
         some (atr_table (crc32 id.key % 1024))⟩) ∧
    legacy_init_atr_if_needed (fun s => s.length) (fun n => "atr" ++ toString n)
      none "k" = (none, none) ∧
    legacy_init_atr_if_needed (fun s => s.length) (fun n => "atr" ++ toString n)
      (some "atr1") "ab" = (some "atr2", some attempt_state.PENDING) ∧
    (legacy_init_atr_if_needed (fun s => s.length) (fun n => "atr" ++ toString n)
      (some "atr1") "ab").1 ≠ some "atr1" := by
  refine ⟨fun a c r id => rfl, fun id => rfl, rfl, rfl, ?_⟩
  decide

/-- The re-fetched view of one document listed in a cleaned ATR entry, as seen
by `atr_cleanup_entry::do_per_doc`: whether the lookup returned any values,
its staged links, and the server metadata CRC. -/
structure cleanup_doc_fetch where
  values_empty : Bool
  links : transaction_links
  meta_crc : Option String
  deriving DecidableEq, Repr

/-- The skip chain of `atr_cleanup_entry::do_per_doc`
(`atr_cleanup_entry.cxx` lines 185-210): `true` iff the per-document action is
invoked.  The document is skipped when the lookup returned no values, when it
has neither staged content nor a staged remove or no staged write at all,
when its staged attempt id differs from the entry's attempt id, and — when the
caller requires the CRC to match — when either CRC is missing or they
differ. -/
def do_per_doc_touches (attempt_id : String) (d : cleanup_doc_fetch)
    (require_crc_to_match : Bool) : Bool :=
  if d.values_empty then false
  else if !(d.links.has_staged_content || d.links.is_document_being_removed) ||
      !d.links.has_staged_write then false
  else if d.links.staged_attempt_id ≠ some attempt_id then false
  else if require_crc_to_match &&
      (d.meta_crc.isNone || d.links.crc32_of_staging.isNone ||
        !(decide (d.links.crc32_of_staging = d.meta_crc))) then false
  else true

/-- `atr_cleanup_entry::commit_docs` (`atr_cleanup_entry.cxx` lines 226-264)
drives `do_per_doc` with `require_crc_to_match = true`. -/
def commit_docs_touches (attempt_id : String) (d : cleanup_doc_fetch) : Bool :=
  do_per_doc_touches attempt_id d true

/-- C8: before mutating any document of a cleaned ATR entry the cleanup engine
re-fetches it, and the per-document action only runs when the document's
staged attempt id equals the entry's attempt id and — on the commit path,
which requires the CRC to match — when the staged CRC is present and equals
the server-computed CRC; otherwise the document is left untouched. -/
theorem C8_cleanup_skips_foreign_docs (attempt_id : String) (d : cleanup_doc_fetch)
    (require_crc_to_match : Bool)
    (h : do_per_doc_touches attempt_id d require_crc_to_match = true) :
    d.links.staged_attempt_id = some attempt_id ∧
    (require_crc_to_match = true →
      d.links.crc32_of_staging = d.meta_crc ∧ d.links.crc32_of_staging.isSome = true) ∧
    commit_docs_touches attempt_id d = do_per_doc_touches attempt_id d true := by
  unfold do_per_doc_touches at h
  split_ifs at h with h1 h2 h3 h4
  refine ⟨not_not.mp h3, ?_, rfl⟩
  intro hrc
  subst hrc
  simp only [Bool.true_and, Bool.not_eq_true, Bool.or_eq_false_iff,
    Bool.not_eq_false', decide_eq_true_eq] at h4
  obtain ⟨⟨hmeta, hcrc⟩, heq⟩ := h4
  refine ⟨heq, ?_⟩
  cases hcs : d.links.crc32_of_staging with
  | none => rw [hcs] at hcrc; exact absurd hcrc (by decide)
  | some v => rfl

/-- A concrete cleanup document fetch matching attempt "A" with agreeing
CRCs. -/
def c8_doc : cleanup_doc_fetch :=
  { values_empty := false
  , links :=
      { atr_id_link := some "atr0"
      , atr_bucket_link := some "default"
      , atr_scope_link := some "_default"
      , atr_coll_link := some "_default"
      , staged_transaction_id := some "t0"
      , staged_attempt_id := some "A"
      , staged_content_opt := some "X"
      , op := some "insert"
      , crc32_of_staging := some "c1"
      , is_deleted := false }
  , meta_crc := some "c1" }

/-- C8 witness at a concrete document the cleanup does touch. -/
theorem C8_cleanup_skips_foreign_docs_witness :
    c8_doc.links.staged_attempt_id = some "A" ∧
    (true = true →
      c8_doc.links.crc32_of_staging = c8_doc.meta_crc ∧
      c8_doc.links.crc32_of_staging.isSome = true) ∧
    commit_docs_touches "A" c8_doc = do_per_doc_touches "A" c8_doc true :=
  C8_cleanup_skips_foreign_docs "A" c8_doc true (by decide)

/-- The `attempts` map of one ATR document, keyed by attempt id. -/
abbrev atr_attempts := List (String × attempt_state)

/-- Lookup of one attempt entry in the `attempts` map. -/
def lookup_attempt (aid : String) : atr_attempts → Option attempt_state
  | [] => none
  | (k, v) :: rest => if k = aid then some v else lookup_attempt aid rest

/-- `attempt_context_impl::atr_complete` (`transactions.hxx` lines 732-736):
a sub-document `remove` of the single path `"attempts." + id()` — only this
attempt's sub-tree is deleted from the ATR. -/
def atr_complete_effect (aid : String) : atr_attempts → atr_attempts
  | [] => []
  | (k, v) :: rest =>
    if k = aid then atr_complete_effect aid rest
    else (k, v) :: atr_complete_effect aid rest

/-- `attempt_context_impl::atr_rollback_complete` (`transactions.hxx` lines
861-863) issues the same sub-document `remove` of `"attempts." + id()`. -/
def atr_rollback_complete_effect (aid : String) (atr : atr_attempts) : atr_attempts :=
  atr_complete_effect aid atr

/-- `atr_cleanup_entry::cleanup_entry` (`atr_cleanup_entry.cxx` lines
348-367): a sub-document `replace` of the whole `"attempts"` path with `"{}"`
— the entire attempts map is emptied, whatever attempt is being cleaned. -/
def cleanup_entry_effect (_aid : String) (_atr : atr_attempts) : atr_attempts :=
  []

/-- An ATR holding the entries of two attempts "A" and "B". -/
def atr_two : atr_attempts :=
  [("A", attempt_state.COMMITTED), ("B", attempt_state.PENDING)]

/-- C9 counterexample: cleaning attempt "A"'s entry through
`atr_cleanup_entry::cleanup_entry` removes attempt "B"'s entry as well — the
whole attempts map is replaced with the empty object, so the entry of the
other attempt stored in the same ATR document is not left unchanged. -/
theorem C9_cleanup_wipes_other_attempts :
    lookup_attempt "B" (cleanup_entry_effect "A" atr_two) = none ∧
    lookup_attempt "B" atr_two = some attempt_state.PENDING ∧
    lookup_attempt "B" (cleanup_entry_effect "A" atr_two) ≠ lookup_attempt "B" atr_two := by
  refine ⟨rfl, by decide, by decide⟩

/-- Frame property of the sub-document removal of one attempt's path. -/
theorem lookup_attempt_remove_ne (aid other : String) (h : other ≠ aid) :
    ∀ atr : atr_attempts,
      lookup_attempt other (atr_complete_effect aid atr) = lookup_attempt other atr
  | [] => rfl
  | (k, v) :: rest => by
    by_cases hk : k = aid
    · simp [atr_complete_effect, lookup_attempt, hk, Ne.symm h,
        lookup_attempt_remove_ne aid other h rest]
    · simp [atr_complete_effect, lookup_attempt, hk,
        lookup_attempt_remove_ne aid other h rest]

/-- C9 amended: at the end of commit (`atr_complete`) and of rollback
(`atr_rollback_complete`) only the attempt's own sub-tree under
`attempts.<attempt-id>` is removed and the entries of all other attempts in
the same ATR document are unchanged; the cleanup engine's `cleanup_entry`,
however, replaces the whole `attempts` map with the empty object, removing
every attempt's entry. -/
theorem C9_attempt_entry_removal_scope :
    (∀ (atr : atr_attempts) (aid other : String), other ≠ aid →
      lookup_attempt other (atr_complete_effect aid atr) = lookup_attempt other atr) ∧
    (∀ (atr : atr_attempts) (aid other : String), other ≠ aid →
      lookup_attempt other (atr_rollback_complete_effect aid atr) = lookup_attempt other atr) ∧
    (∀ (atr : atr_attempts) (aid : String), cleanup_entry_effect aid atr = []) := by
  refine ⟨?_, ?_, fun atr aid => rfl⟩
  · intro atr aid other h
    exact lookup_attempt_remove_ne aid other h atr
  · intro atr aid other h
    exact lookup_attempt_remove_ne aid other h atr

/-- C9 amended witness: on the two-attempt ATR, removing "A" through
`atr_complete` leaves "B"'s entry readable. -/
theorem C9_attempt_entry_removal_scope_witness :
    lookup_attempt "B" (atr_complete_effect "A" atr_two) = lookup_attempt "B" atr_two :=
  C9_attempt_entry_removal_scope.1 atr_two "A" "B" (by decide)
